import Mathlib

/-!
Verification of the Gamesir-T1d → DS4 bridge (`gamesir_ds4_driver_updated.py`).

Shallow embedding conventions:
* A BLE notification frame (`bytearray`) is a `List Nat`; where a property
  depends on byte-ness, the hypothesis `∀ b ∈ frame, b < 256` states it.
* Python attribute mutation is explicit state passing on the records
  `DS4State` (the decoded controller fields of the `DS4` instance) and
  `Session` (those fields plus `_previous_state`).
* A Python `IndexError` raised by `data[i]` on a too-short bytearray is an
  `Except.error` carrying the state as mutated up to the raising statement,
  since the real exception propagates out of `get_state` leaving the object
  in exactly that partially-updated condition.
* Python float division `v / 512` on the small integers produced by the
  decoder is exact in IEEE double, so it is embedded as exact division in `ℚ`.
* The virtual-gamepad sink (`vgamepad`) is abstracted as a trace: the list of
  directives `simulate_input` issues, in order.
-/

set_option maxRecDepth 8192

namespace GamesirDS4

/-- A raw BLE notification frame as delivered to `get_state` via `_read`. -/
abbrev Frame := List Nat

/-- Source constant `STICK_MIN = -512` (line 29). -/
def STICK_MIN : Int := -512

/-- Source constant `STICK_MAX = 512` (line 30). -/
def STICK_MAX : Int := 512

/-- `DS4_BUTTONS.DS4_BUTTON_OPTIONS = 1 << 13`. -/
def DS4_BUTTON_OPTIONS : Nat := 1 <<< 13

/-- `DS4_BUTTONS.DS4_BUTTON_SHARE = 1 << 12`. -/
def DS4_BUTTON_SHARE : Nat := 1 <<< 12

/-- `DS4_BUTTONS.DS4_BUTTON_SHOULDER_RIGHT = 1 << 9`. -/
def DS4_BUTTON_SHOULDER_RIGHT : Nat := 1 <<< 9

/-- `DS4_BUTTONS.DS4_BUTTON_SHOULDER_LEFT = 1 << 8`. -/
def DS4_BUTTON_SHOULDER_LEFT : Nat := 1 <<< 8

/-- `DS4_BUTTONS.DS4_BUTTON_TRIANGLE = 1 << 7`. -/
def DS4_BUTTON_TRIANGLE : Nat := 1 <<< 7

/-- `DS4_BUTTONS.DS4_BUTTON_CIRCLE = 1 << 6`. -/
def DS4_BUTTON_CIRCLE : Nat := 1 <<< 6

/-- `DS4_BUTTONS.DS4_BUTTON_CROSS = 1 << 5`. -/
def DS4_BUTTON_CROSS : Nat := 1 <<< 5

/-- `DS4_BUTTONS.DS4_BUTTON_SQUARE = 1 << 4`. -/
def DS4_BUTTON_SQUARE : Nat := 1 <<< 4

/-- The decoded controller fields of the `DS4` class, in declaration order of
`__init__` (lines 36-52).  All are Python ints; the decoder only ever stores
non-negative values, so `Nat` is the faithful carrier. -/
structure DS4State where
  L1 : Nat
  L2 : Nat
  R1 : Nat
  R2 : Nat
  Triangle : Nat
  Circle : Nat
  Cross : Nat
  Square : Nat
  Share : Nat
  Options : Nat
  LX : Nat
  LY : Nat
  RX : Nat
  RY : Nat
deriving DecidableEq, Repr

/-- The field values set by `DS4.__init__`: everything zero. -/
def initState : DS4State :=
  { L1 := 0, L2 := 0, R1 := 0, R2 := 0
    Triangle := 0, Circle := 0, Cross := 0, Square := 0
    Share := 0, Options := 0
    LX := 0, LY := 0, RX := 0, RY := 0 }

/-- Per-connection mutable state of a `DS4` object: the decoded fields plus
`_previous_state`.  In the source `_previous_state` starts as the string `""`,
which Python `!=` reports as different from every `bytearray`; `none` models
that initial value, `some f` models a stored frame. -/
structure Session where
  previous_state : Option Frame
  st : DS4State
deriving DecidableEq, Repr

/-- A freshly constructed, not yet polled `DS4` object. -/
def initSession : Session := { previous_state := none, st := initState }

/-- `int(bool(n))`: 1 when the masked value is non-zero, else 0. -/
def toBit (n : Nat) : Nat := if n = 0 then 0 else 1

/-- `DS4.parse_state` (lines 80-104), statement by statement.  Each
`data[i]` read is a `match` on `data[i]?`; a `none` raises `IndexError`,
embedded as `.error` carrying the fields as assigned so far (the mutations
before the raising statement have already happened on the object). -/
def parse_state (data : Frame) (s0 : DS4State) : Except DS4State DS4State :=
  match data[9]? with
  | none => .error s0
  | some d9 =>
  let s1 := { s0 with L1 := toBit (d9 &&& 0x40) }
  match data[7]? with
  | none => .error s1
  | some d7 =>
  let s2 := { s1 with L2 := d7 }
  let s3 := { s2 with R1 := toBit (d9 &&& 0x80) }
  match data[8]? with
  | none => .error s3
  | some d8 =>
  let s4 := { s3 with R2 := d8 }
  let s5 := { s4 with Cross := toBit (d9 &&& 0x01) }
  let s6 := { s5 with Circle := toBit (d9 &&& 0x02) }
  let s7 := { s6 with Square := toBit (d9 &&& 0x08) }
  let s8 := { s7 with Triangle := toBit (d9 &&& 0x10) }
  match data[10]? with
  | none => .error s8
  | some d10 =>
  let s9 := { s8 with Share := toBit (d10 &&& 0x04) }
  let s10 := { s9 with Options := toBit (d10 &&& 0x08) }
  match data[2]? with
  | none => .error s10
  | some d2 =>
  match data[3]? with
  | none => .error s10
  | some d3 =>
  let s11 := { s10 with LX := (d2 <<< 2) ||| (d3 >>> 6) }
  match data[4]? with
  | none => .error s11
  | some d4 =>
  let s12 := { s11 with LY := ((d3 &&& 0x3f) <<< 4) + (d4 >>> 4) }
  match data[5]? with
  | none => .error s12
  | some d5 =>
  let s13 := { s12 with RX := ((d4 &&& 0xf) <<< 6) ||| (d5 >>> 2) }
  match data[6]? with
  | none => .error s13
  | some d6 =>
  .ok { s13 with RY := ((d5 &&& 0x3) <<< 8) + d6 }

/-- `DS4.get_state` (lines 66-75) applied to the frame the transport just
delivered.  `self._state_vec[0] == 0xc9` returns `False` at once; otherwise
the raw frame is compared against `_previous_state`, and on inequality the
baseline is overwritten *before* `parse_state` runs (so a parse `IndexError`
escapes with the baseline already updated).  The `Bool` is the Python return
value (`True` iff the state changed); `.error` is a propagated exception
carrying the object state at the raise. -/
def get_state (sess : Session) (frame : Frame) : Except Session (Session × Bool) :=
  match frame[0]? with
  | none => .error sess
  | some b0 =>
    if b0 = 0xc9 then
      .ok (sess, false)
    else if sess.previous_state ≠ some frame then
      match parse_state frame sess.st with
      | .error sp => .error { previous_state := some frame, st := sp }
      | .ok st' => .ok ({ previous_state := some frame, st := st' }, true)
    else
      .ok (sess, false)

/-- One directive issued to the `vgamepad` sink by `simulate_input`. -/
inductive Directive where
  | press (button : Nat)
  | leftStick (x y : ℚ)
  | rightStick (x y : ℚ)
  | trigger (which : Nat) (magnitude : ℚ)
  | update
deriving DecidableEq, Repr

/-- True exactly on `trigger` directives. -/
def isTriggerDirective : Directive → Bool
  | .trigger _ _ => true
  | _ => false

/-- True exactly on the `update` (commit/flush) directive. -/
def isUpdateDirective : Directive → Bool
  | .update => true
  | _ => false

/-- `DS4.simulate_input` (lines 106-127) as the ordered trace of sink calls:
one conditional `press_button` per truthy face/menu flag, then
`left_joystick_float(LX/512, LY/512)`, `right_joystick_float(RX/512, RY/512)`,
then `update()`.  The source issues no call for `L1`, `R1`, `L2` or `R2`. -/
def simulate_input (s : DS4State) : List Directive :=
  (if s.Cross ≠ 0 then [Directive.press DS4_BUTTON_CROSS] else []) ++
  (if s.Circle ≠ 0 then [Directive.press DS4_BUTTON_CIRCLE] else []) ++
  (if s.Square ≠ 0 then [Directive.press DS4_BUTTON_SQUARE] else []) ++
  (if s.Triangle ≠ 0 then [Directive.press DS4_BUTTON_TRIANGLE] else []) ++
  (if s.Share ≠ 0 then [Directive.press DS4_BUTTON_SHARE] else []) ++
  (if s.Options ≠ 0 then [Directive.press DS4_BUTTON_OPTIONS] else []) ++
  [Directive.leftStick ((s.LX : ℚ) / 512) ((s.LY : ℚ) / 512),
   Directive.rightStick ((s.RX : ℚ) / 512) ((s.RY : ℚ) / 512),
   Directive.update]

/-- Modelled from the spec: the Frame Validator of §4.1 has no counterpart in
the source (the script performs no length check anywhere).  Per the spec it
accepts exactly the frames of at least the profile's minimum length whose
first byte is not the garbage sentinel `0xC9`.  The minimum length for this
profile is forced to 11 by the decoder, which reads byte indices 2 through 10. -/
def MIN_FRAME_LEN : Nat := 11

/-- Modelled from the spec: `validate(frame)` of §4.1 — length at least the
profile minimum and first byte not the sentinel. -/
def validate (frame : Frame) : Bool :=
  decide (MIN_FRAME_LEN ≤ frame.length) && decide (frame[0]? ≠ some 0xc9)

/-- All-zero 11-byte frame: decodes to `initState`. -/
def frameZero : Frame := [0, 0, 0, 0, 0, 0, 0, 0, 0, 0, 0]

/-- 11-byte frame differing from `frameZero` only in byte 1, which the decoder
never reads: byte-wise different, decodes to the same state. -/
def frameB : Frame := [0, 1, 0, 0, 0, 0, 0, 0, 0, 0, 0]

/-- Frame with byte 2 = 129: the decoder yields `LX = (129 << 2) | 0 = 516`. -/
def frameX : Frame := [0, 0, 129, 0, 0, 0, 0, 0, 0, 0, 0]

/-- Decoded state with the left shoulder button held and both triggers pulled,
all other fields zero. -/
def stShoulder : DS4State :=
  { initState with L1 := 1, R1 := 1, L2 := 200, R2 := 7 }

example : parse_state frameZero initState = .ok initState := by rfl
example : parse_state frameX initState = .ok { initState with LX := 516 } := by rfl
example : get_state initSession [0] =
    .error { previous_state := some [0], st := initState } := by rfl

/-- On a list, `l[i]?` succeeds with the `getD` value whenever `i` is in range. -/
theorem getElem?_eq_some_getD (l : Frame) (i : Nat) (h : i < l.length) :
    l[i]? = some (l.getD i 0) := by
  rw [List.getD_eq_getElem?_getD, List.getElem?_eq_getElem h]
  rfl

/-- The decoded state of a frame covering all read offsets (length ≥ 11):
every field of `parse_state`'s result, spelled with `getD`. -/
def decodeFields (data : Frame) : DS4State :=
  { L1 := toBit (data.getD 9 0 &&& 0x40)
    L2 := data.getD 7 0
    R1 := toBit (data.getD 9 0 &&& 0x80)
    R2 := data.getD 8 0
    Triangle := toBit (data.getD 9 0 &&& 0x10)
    Circle := toBit (data.getD 9 0 &&& 0x02)
    Cross := toBit (data.getD 9 0 &&& 0x01)
    Square := toBit (data.getD 9 0 &&& 0x08)
    Share := toBit (data.getD 10 0 &&& 0x04)
    Options := toBit (data.getD 10 0 &&& 0x08)
    LX := (data.getD 2 0 <<< 2) ||| (data.getD 3 0 >>> 6)
    LY := ((data.getD 3 0 &&& 0x3f) <<< 4) + (data.getD 4 0 >>> 4)
    RX := ((data.getD 4 0 &&& 0xf) <<< 6) ||| (data.getD 5 0 >>> 2)
    RY := ((data.getD 5 0 &&& 0x3) <<< 8) + data.getD 6 0 }

/-- On a frame of length at least 11, `parse_state` succeeds and every field
of the result is the corresponding bit-extraction, independent of the state
the parse started from (all fields are overwritten). -/
theorem parse_state_of_length (data : Frame) (s : DS4State) (h : 11 ≤ data.length) :
    parse_state data s = .ok (decodeFields data) := by
  have h2 := getElem?_eq_some_getD data 2 (by omega)
  have h3 := getElem?_eq_some_getD data 3 (by omega)
  have h4 := getElem?_eq_some_getD data 4 (by omega)
  have h5 := getElem?_eq_some_getD data 5 (by omega)
  have h6 := getElem?_eq_some_getD data 6 (by omega)
  have h7 := getElem?_eq_some_getD data 7 (by omega)
  have h8 := getElem?_eq_some_getD data 8 (by omega)
  have h9 := getElem?_eq_some_getD data 9 (by omega)
  have h10 := getElem?_eq_some_getD data 10 (by omega)
  simp only [parse_state, h2, h3, h4, h5, h6, h7, h8, h9, h10, decodeFields]

/-- A frame shorter than 11 bytes always makes `parse_state` raise: the last
offset the decoder reads, `data[10]`, is out of range. -/
theorem parse_state_short (data : Frame) (s : DS4State) (h : data.length < 11) :
    ∃ sp, parse_state data s = .error sp := by
  rcases h9 : data[9]? with _ | d9
  · exact ⟨s, by simp only [parse_state, h9]⟩
  · have h9' : 9 < data.length := by
      obtain ⟨hlt, -⟩ := List.getElem?_eq_some.mp h9
      exact hlt
    have h7 := getElem?_eq_some_getD data 7 (by omega)
    have h8 := getElem?_eq_some_getD data 8 (by omega)
    have h10 : data[10]? = none := List.getElem?_eq_none (by omega)
    let spart : DS4State :=
      { s with
        L1 := toBit (d9 &&& 0x40)
        L2 := data.getD 7 0
        R1 := toBit (d9 &&& 0x80)
        R2 := data.getD 8 0
        Cross := toBit (d9 &&& 0x01)
        Circle := toBit (d9 &&& 0x02)
        Square := toBit (d9 &&& 0x08)
        Triangle := toBit (d9 &&& 0x10) }
    refine ⟨spart, ?_⟩
    simp only [parse_state, h9, h7, h8, h10]

/-- C1: a frame whose first byte is the sentinel `0xC9` is returned as "no
change" before any decoding, for every length at least the minimum; the
session (baseline and every decoded field) is returned untouched. -/
theorem garbage_frame_dropped (sess : Session) (frame : Frame)
    (_hlen : MIN_FRAME_LEN ≤ frame.length) (hhead : frame[0]? = some 0xc9) :
    get_state sess frame = .ok (sess, false) := by
  simp [get_state, hhead]

/-- Witness for C1 at a concrete garbage frame of minimum length. -/
theorem garbage_frame_dropped_witness :
    get_state initSession (0xc9 :: List.replicate 10 0) = .ok (initSession, false) :=
  garbage_frame_dropped initSession (0xc9 :: List.replicate 10 0) (by decide) (by decide)

/-- C2: ingesting a fresh non-garbage frame that decodes successfully reports
a change; ingesting the byte-identical frame again immediately afterwards
reports no change and leaves the session as it was — emission happens on the
first ingestion only. -/
theorem same_frame_twice (sess : Session) (frame : Frame) (b0 : Nat)
    (hhead : frame[0]? = some b0) (hb : b0 ≠ 0xc9)
    (hnew : sess.previous_state ≠ some frame)
    (st' : DS4State) (hp : parse_state frame sess.st = .ok st') :
    get_state sess frame = .ok ({ previous_state := some frame, st := st' }, true) ∧
    get_state { previous_state := some frame, st := st' } frame =
      .ok ({ previous_state := some frame, st := st' }, false) := by
  constructor
  · simp [get_state, hhead, hb, hnew, hp]
  · simp [get_state, hhead, hb]

/-- Witness for C2: the all-zero 11-byte frame into a fresh session. -/
theorem same_frame_twice_witness :
    get_state initSession frameZero =
      .ok ({ previous_state := some frameZero, st := initState }, true) ∧
    get_state { previous_state := some frameZero, st := initState } frameZero =
      .ok ({ previous_state := some frameZero, st := initState }, false) :=
  same_frame_twice initSession frameZero 0 (by rfl) (by decide) (by decide)
    initState (by rfl)

/-- C8: with no prior baseline (`_previous_state` still its initial non-frame
value), the first non-garbage frame that decodes is always reported as
changed, its decoded state is stored, and the raw frame becomes the new
baseline. -/
theorem first_frame_always_changed (sess : Session) (frame : Frame) (b0 : Nat)
    (hnone : sess.previous_state = none)
    (hhead : frame[0]? = some b0) (hb : b0 ≠ 0xc9)
    (st' : DS4State) (hp : parse_state frame sess.st = .ok st') :
    get_state sess frame = .ok ({ previous_state := some frame, st := st' }, true) := by
  simp [get_state, hhead, hb, hnone, hp]

/-- Witness for C8 at the all-zero 11-byte frame. -/
theorem first_frame_always_changed_witness :
    get_state initSession frameZero =
      .ok ({ previous_state := some frameZero, st := initState }, true) :=
  first_frame_always_changed initSession frameZero 0 (by rfl) (by rfl) (by decide)
    initState (by rfl)

/-- Counterexample to C5 at the concrete frame `[0]` (length 1, first byte not
the sentinel, fresh session): the claim says a too-short frame is dropped
silently, never decoded, with the session unchanged; in fact `get_state`
passes it to the decoder, which raises `IndexError` (the `.error` result), and
the raising call has already replaced the baseline `none` with `some [0]`. -/
theorem short_frame_counterexample :
    ([0] : Frame).length < MIN_FRAME_LEN ∧
    get_state initSession [0] = .error { previous_state := some [0], st := initState } ∧
    ∀ r : Session × Bool, get_state initSession [0] ≠ .ok r := by
  refine ⟨by decide, rfl, fun r h => ?_⟩
  rw [show get_state initSession [0] =
    .error { previous_state := some [0], st := initState } from rfl] at h
  exact Except.noConfusion h

/-- C5 as amended: `get_state` performs no minimum-length validation at all.
A nonempty frame shorter than 11 bytes whose first byte is not the sentinel
and which differs from the stored baseline is handed straight to the decoder,
which raises `IndexError` — the frame is not dropped silently, and the raise
happens after the baseline has already been overwritten with the raw frame. -/
theorem short_frame_not_dropped (sess : Session) (frame : Frame) (b0 : Nat)
    (hlen : frame.length < MIN_FRAME_LEN)
    (hhead : frame[0]? = some b0) (hb : b0 ≠ 0xc9)
    (hdiff : sess.previous_state ≠ some frame) :
    ∃ sp, get_state sess frame = .error { previous_state := some frame, st := sp } := by
  obtain ⟨sp, hsp⟩ := parse_state_short frame sess.st (by
    simpa [MIN_FRAME_LEN] using hlen)
  exact ⟨sp, by simp [get_state, hhead, hb, hdiff, hsp]⟩

/-- Witness for the amended C5 at the concrete frame `[0]`. -/
theorem short_frame_not_dropped_witness :
    ∃ sp, get_state initSession [0] = .error { previous_state := some [0], st := sp } :=
  short_frame_not_dropped initSession [0] 0 (by decide) (by rfl) (by decide) (by decide)

/-- C6: decoding is total on frames accepted by the (spec-modelled) validator:
it succeeds, and it reads only bytes within the validated span — any two
frames agreeing on their first `MIN_FRAME_LEN` bytes parse identically from
any starting state. -/
theorem decode_total_on_validated (frame : Frame) (hv : validate frame = true)
    (s : DS4State) :
    parse_state frame s = .ok (decodeFields frame) ∧
    ∀ g : Frame, frame.take MIN_FRAME_LEN = g.take MIN_FRAME_LEN →
      parse_state frame s = parse_state g s := by
  have hlen : 11 ≤ frame.length := by
    have := (Bool.and_eq_true _ _).mp hv |>.1
    simpa [MIN_FRAME_LEN] using of_decide_eq_true this
  refine ⟨parse_state_of_length frame s hlen, fun g htake => ?_⟩
  have hgd : ∀ i, i < 11 → frame[i]? = g[i]? := by
    intro i hi
    have hf := List.getElem?_take_of_lt (l := frame) (n := 11) (m := i) hi
    have hg := List.getElem?_take_of_lt (l := g) (n := 11) (m := i) hi
    rw [← hf, ← hg, show frame.take 11 = g.take 11 from htake]
  have hglen : 11 ≤ g.length := by
    have h10f : frame[10]? = some (frame.getD 10 0) :=
      getElem?_eq_some_getD frame 10 (by omega)
    have h10g : g[10]? = some (frame.getD 10 0) := by
      rw [← hgd 10 (by omega)]
      exact h10f
    obtain ⟨hlt, -⟩ := List.getElem?_eq_some.mp h10g
    omega
  have hds : ∀ i, i < 11 → frame.getD i 0 = g.getD i 0 := by
    intro i hi
    rw [List.getD_eq_getElem?_getD, List.getD_eq_getElem?_getD, hgd i hi]
  rw [parse_state_of_length frame s hlen, parse_state_of_length g s hglen]
  simp only [decodeFields]
  rw [hds 2 (by omega), hds 3 (by omega), hds 4 (by omega), hds 5 (by omega),
      hds 6 (by omega), hds 7 (by omega), hds 8 (by omega), hds 9 (by omega),
      hds 10 (by omega)]

/-- Witness for C6 at the all-zero 11-byte frame, with a second frame that
agrees on the validated span but has a 12th byte. -/
theorem decode_total_on_validated_witness :
    parse_state frameZero initState = .ok (decodeFields frameZero) ∧
    parse_state frameZero initState = parse_state (frameZero ++ [5]) initState :=
  ⟨(decode_total_on_validated frameZero (by decide) initState).1,
   (decode_total_on_validated frameZero (by decide) initState).2 (frameZero ++ [5])
     (by decide)⟩

/-- Counterexample to C7 at concrete frames: `frameZero` and `frameB` differ
only in byte 1, which the decoder ignores, so they decode to field-equal
states; yet ingesting `frameB` right after `frameZero` reports a change
(`true`), because `get_state` compares raw frames, not decoded states — the
claim says it must report no change. -/
theorem change_detection_counterexample :
    frameZero ≠ frameB ∧
    parse_state frameZero initState = parse_state frameB initState ∧
    get_state initSession frameZero =
      .ok ({ previous_state := some frameZero, st := initState }, true) ∧
    get_state { previous_state := some frameZero, st := initState } frameB =
      .ok ({ previous_state := some frameB, st := initState }, true) :=
  ⟨by decide, rfl, rfl, rfl⟩

/-- C7 as amended: change detection is byte-wise structural equality on the
RAW frame, not on the decoded state.  A frame byte-identical to the stored
baseline reports no change; any frame differing from the baseline in at least
one byte — even a byte the decoder never reads — reports a change.  (Two
decoded states differing in a field always come from different raw frames,
decoding being a function of the frame, so such a pair still reports a
change.) -/
theorem change_detection_on_raw_frames (sess : Session) (frame : Frame) (b0 : Nat)
    (hhead : frame[0]? = some b0) (hb : b0 ≠ 0xc9)
    (st' : DS4State) (hp : parse_state frame sess.st = .ok st') :
    (sess.previous_state = some frame → get_state sess frame = .ok (sess, false)) ∧
    (sess.previous_state ≠ some frame →
      get_state sess frame = .ok ({ previous_state := some frame, st := st' }, true)) := by
  constructor
  · intro heq
    simp [get_state, hhead, hb, heq]
  · intro hne
    simp [get_state, hhead, hb, hne, hp]

/-- Witness for the amended C7: a byte-identical repeat of `frameZero` reports
no change, while `frameB` (different raw bytes, same decoded state) reports a
change. -/
theorem change_detection_on_raw_frames_witness :
    get_state { previous_state := some frameZero, st := initState } frameZero =
      .ok ({ previous_state := some frameZero, st := initState }, false) ∧
    get_state initSession frameB =
      .ok ({ previous_state := some frameB, st := initState }, true) :=
  ⟨(change_detection_on_raw_frames { previous_state := some frameZero, st := initState }
      frameZero 0 rfl (by decide) initState rfl).1 rfl,
   (change_detection_on_raw_frames initSession frameB 0 rfl (by decide) initState
      rfl).2 (by decide)⟩

/-- C3 fails on the code: the decoder performs no sign adjustment, so stick
axes range over 0..1023, not −512..+512.  Concretely, the frame with byte 2 =
129 decodes to `LX = (129 << 2) | 0 = 516`, which exceeds `STICK_MAX = 512` —
contradicting the source's own field comments (`# -512 to +512`, lines 49-52)
and its unused `STICK_MIN`/`STICK_MAX` constants. -/
theorem stick_not_sign_adjusted :
    parse_state frameX initState = .ok { initState with LX := 516 } ∧
    ¬ ((({ initState with LX := 516 } : DS4State).LX : Int) ≤ STICK_MAX) :=
  ⟨rfl, by decide⟩

/-- C4 fails on the code: `simulate_input` sends `LX / 512` to the sink with
no clamping (despite its own comment `# Normalize to range [-1, 1]`).  For the
decodable stick value 516 the emitted coordinate is `516/512 > 1`, and for the
decoder's actual minimum stick value 0 the emitted coordinate is `0`, not
`−1.0`. -/
theorem normalization_not_clamped :
    Directive.leftStick ((516 : ℚ) / 512) 0 ∈
      simulate_input { initState with LX := 516 } ∧
    (1 : ℚ) < (516 : ℚ) / 512 ∧
    Directive.leftStick 0 0 ∈ simulate_input initState ∧
    (0 : ℚ) ≠ -1 := by
  refine ⟨?_, by norm_num, ?_, by norm_num⟩
  · simp [simulate_input, initState]
  · simp [simulate_input, initState]

/-- Counterexample to C9 at a concrete state with the left shoulder button
asserted and both triggers pulled: the claim requires a press directive for
the shoulder flag and a trigger directive per trigger, but `simulate_input`
issues neither — `L1`, `R1`, `L2`, `R2` are decoded yet never forwarded to
the sink. -/
theorem emitter_counterexample :
    stShoulder.L1 = 1 ∧ stShoulder.L2 = 200 ∧
    Directive.press DS4_BUTTON_SHOULDER_LEFT ∉ simulate_input stShoulder ∧
    (simulate_input stShoulder).countP isTriggerDirective = 0 := by
  decide

/-- C9 as amended: on emission the sink receives a press directive for each
asserted face/menu flag (Cross, Circle, Square, Triangle, Share, Options) and
for nothing else — never the shoulder flags — one stick-position directive per
stick with the `v/512` coordinates, no trigger directives at all, and exactly
one commit (`update`) directive, placed after every other directive. -/
theorem emitter_trace (st : DS4State) :
    (st.Cross ≠ 0 → Directive.press DS4_BUTTON_CROSS ∈ simulate_input st) ∧
    (st.Circle ≠ 0 → Directive.press DS4_BUTTON_CIRCLE ∈ simulate_input st) ∧
    (st.Square ≠ 0 → Directive.press DS4_BUTTON_SQUARE ∈ simulate_input st) ∧
    (st.Triangle ≠ 0 → Directive.press DS4_BUTTON_TRIANGLE ∈ simulate_input st) ∧
    (st.Share ≠ 0 → Directive.press DS4_BUTTON_SHARE ∈ simulate_input st) ∧
    (st.Options ≠ 0 → Directive.press DS4_BUTTON_OPTIONS ∈ simulate_input st) ∧
    Directive.leftStick ((st.LX : ℚ) / 512) ((st.LY : ℚ) / 512) ∈ simulate_input st ∧
    Directive.rightStick ((st.RX : ℚ) / 512) ((st.RY : ℚ) / 512) ∈ simulate_input st ∧
    (∀ b : Nat, Directive.press b ∈ simulate_input st →
      b = DS4_BUTTON_CROSS ∨ b = DS4_BUTTON_CIRCLE ∨ b = DS4_BUTTON_SQUARE ∨
      b = DS4_BUTTON_TRIANGLE ∨ b = DS4_BUTTON_SHARE ∨ b = DS4_BUTTON_OPTIONS) ∧
    (simulate_input st).countP isTriggerDirective = 0 ∧
    (simulate_input st).countP isUpdateDirective = 1 ∧
    (simulate_input st).getLast? = some Directive.update := by
  refine ⟨fun h => ?_, fun h => ?_, fun h => ?_, fun h => ?_, fun h => ?_, fun h => ?_,
    ?_, ?_, fun b hb => ?_, ?_, ?_, ?_⟩
  · simp [simulate_input, h]
  · simp [simulate_input, h]
  · simp [simulate_input, h]
  · simp [simulate_input, h]
  · simp [simulate_input, h]
  · simp [simulate_input, h]
  · simp [simulate_input]
  · simp [simulate_input]
  · simp [simulate_input] at hb
    rcases hb with ⟨-, rfl⟩ | ⟨-, rfl⟩ | ⟨-, rfl⟩ | ⟨-, rfl⟩ | ⟨-, rfl⟩ | ⟨-, rfl⟩ <;> simp
  · simp only [simulate_input, List.countP_append]
    split_ifs <;> simp [List.countP_cons, isTriggerDirective]
  · simp only [simulate_input, List.countP_append]
    split_ifs <;> simp [List.countP_cons, isUpdateDirective]
  · simp [simulate_input]

/-- Witness for the amended C9 at a concrete state with Cross asserted. -/
theorem emitter_trace_witness :
    Directive.press DS4_BUTTON_CROSS ∈ simulate_input { initState with Cross := 1 } ∧
    (simulate_input { initState with Cross := 1 }).countP isTriggerDirective = 0 ∧
    (simulate_input { initState with Cross := 1 }).countP isUpdateDirective = 1 :=
  ⟨(emitter_trace { initState with Cross := 1 }).1 (by decide),
   (emitter_trace { initState with Cross := 1 }).2.2.2.2.2.2.2.2.2.1,
   (emitter_trace { initState with Cross := 1 }).2.2.2.2.2.2.2.2.2.2.1⟩

/-- `int(bool(x))` is 0 or 1. -/
theorem toBit_le_one (n : Nat) : toBit n ≤ 1 := by
  unfold toBit
  split <;> omega

/-- A byte read from an in-range offset of a frame of bytes is below 256. -/
theorem getD_lt_256 (frame : Frame) (hbytes : ∀ b ∈ frame, b < 256) (i : Nat)
    (h : i < frame.length) : frame.getD i 0 < 256 := by
  rw [List.getD_eq_getElem?_getD, List.getElem?_eq_getElem h]
  exact hbytes _ (List.getElem_mem h)

/-- Bitwise-or of two values below 2^10 stays below 2^10. -/
theorem or_le_1023 {a b : Nat} (ha : a < 1024) (hb : b < 1024) : a ||| b ≤ 1023 := by
  have h := Nat.or_lt_two_pow (n := 10) (by simpa using ha) (by simpa using hb)
  norm_num at h
  omega

/-- C10: the decoder's field invariant.  On any frame of bytes of length at
least 11, every digital button lands in {0,1}, both triggers in 0..255, and
every stick axis in 0..1023 (the non-negativity being inherent to the `Nat`
carrier: all arithmetic in `parse_state` is non-negative). -/
theorem parse_fields_in_range (frame : Frame) (hbytes : ∀ b ∈ frame, b < 256)
    (hlen : 11 ≤ frame.length) (s st' : DS4State)
    (hp : parse_state frame s = .ok st') :
    st'.L1 ≤ 1 ∧ st'.R1 ≤ 1 ∧ st'.Cross ≤ 1 ∧ st'.Circle ≤ 1 ∧ st'.Square ≤ 1 ∧
    st'.Triangle ≤ 1 ∧ st'.Share ≤ 1 ∧ st'.Options ≤ 1 ∧
    st'.L2 ≤ 255 ∧ st'.R2 ≤ 255 ∧
    st'.LX ≤ 1023 ∧ st'.LY ≤ 1023 ∧ st'.RX ≤ 1023 ∧ st'.RY ≤ 1023 := by
  rw [parse_state_of_length frame s hlen] at hp
  injection hp with hp
  subst hp
  have d2 := getD_lt_256 frame hbytes 2 (by omega)
  have d3 := getD_lt_256 frame hbytes 3 (by omega)
  have d4 := getD_lt_256 frame hbytes 4 (by omega)
  have d5 := getD_lt_256 frame hbytes 5 (by omega)
  have d6 := getD_lt_256 frame hbytes 6 (by omega)
  have d7 := getD_lt_256 frame hbytes 7 (by omega)
  have d8 := getD_lt_256 frame hbytes 8 (by omega)
  have e2 : (2 : Nat) ^ 2 = 4 := rfl
  have e4 : (2 : Nat) ^ 4 = 16 := rfl
  have e6 : (2 : Nat) ^ 6 = 64 := rfl
  have e8 : (2 : Nat) ^ 8 = 256 := rfl
  have hLX : (frame.getD 2 0 <<< 2) ||| (frame.getD 3 0 >>> 6) ≤ 1023 := by
    refine or_le_1023 ?_ ?_
    · rw [Nat.shiftLeft_eq, e2]
      omega
    · rw [Nat.shiftRight_eq_div_pow, e6]
      have := Nat.div_le_self (frame.getD 3 0) 64
      omega
  have hLY : ((frame.getD 3 0 &&& 0x3f) <<< 4) + (frame.getD 4 0 >>> 4) ≤ 1023 := by
    have h1 : (frame.getD 3 0 &&& 0x3f) ≤ 63 := Nat.and_le_right
    have h2 : (frame.getD 3 0 &&& 0x3f) <<< 4 ≤ 1008 := by
      rw [Nat.shiftLeft_eq, e4]
      omega
    have h3 : frame.getD 4 0 >>> 4 < 16 := by
      rw [Nat.shiftRight_eq_div_pow, e4, Nat.div_lt_iff_lt_mul (by omega)]
      omega
    omega
  have hRX : ((frame.getD 4 0 &&& 0xf) <<< 6) ||| (frame.getD 5 0 >>> 2) ≤ 1023 := by
    refine or_le_1023 ?_ ?_
    · have h1 : (frame.getD 4 0 &&& 0xf) ≤ 15 := Nat.and_le_right
      rw [Nat.shiftLeft_eq, e6]
      omega
    · rw [Nat.shiftRight_eq_div_pow, e2]
      have := Nat.div_le_self (frame.getD 5 0) 4
      omega
  have hRY : ((frame.getD 5 0 &&& 0x3) <<< 8) + frame.getD 6 0 ≤ 1023 := by
    have h1 : (frame.getD 5 0 &&& 0x3) ≤ 3 := Nat.and_le_right
    have h2 : (frame.getD 5 0 &&& 0x3) <<< 8 ≤ 768 := by
      rw [Nat.shiftLeft_eq, e8]
      omega
    omega
  simp only [decodeFields]
  exact ⟨toBit_le_one _, toBit_le_one _, toBit_le_one _, toBit_le_one _, toBit_le_one _,
    toBit_le_one _, toBit_le_one _, toBit_le_one _, by omega, by omega,
    hLX, hLY, hRX, hRY⟩

/-- Witness for C10 at the all-zero 11-byte frame. -/
theorem parse_fields_in_range_witness :
    initState.L1 ≤ 1 ∧ initState.R1 ≤ 1 ∧ initState.Cross ≤ 1 ∧ initState.Circle ≤ 1 ∧
    initState.Square ≤ 1 ∧ initState.Triangle ≤ 1 ∧ initState.Share ≤ 1 ∧
    initState.Options ≤ 1 ∧ initState.L2 ≤ 255 ∧ initState.R2 ≤ 255 ∧
    initState.LX ≤ 1023 ∧ initState.LY ≤ 1023 ∧ initState.RX ≤ 1023 ∧
    initState.RY ≤ 1023 :=
  parse_fields_in_range frameZero (by decide) (by decide) initState initState rfl

end GamesirDS4
